import Mathlib

/-
Verification development for the go_todo service (src/main.go): a shallow
embedding of its data model, JSON wire decoding, the four request handlers
and the shutdown sequence, followed by theorems settling the spec claims.
-/

set_option autoImplicit false

namespace GoTodo

/-- BSON value as relevant to the `completed` field: the create handler
stores a Go `bool` while the update handler stores the decoded Go `string`
(`bson.M left-brace "title": t.Title, "completed": t.Completed right-brace`
in `updateTodo`), so both shapes can occur in the collection. -/
inductive BsonVal where
  | b (x : Bool)
  | s (x : String)
  deriving DecidableEq, Repr

/-- A persisted document of the `todo` collection. The `id` field holds the
canonical lowercase hex of the ObjectID, `createAt` the bson `createAt`
timestamp (modelled as Nat). -/
structure StoredTodo where
  id : String
  title : String
  completed : BsonVal
  createAt : Nat
  deriving DecidableEq, Repr

/-- The collection state: the list of stored documents, in store order. -/
abbrev Store := List StoredTodo

/-- The Go `todoModel` struct (`ID primitive.ObjectID`, `Title string`,
`Completed bool`, `CreatedAt time.Time` with bson tag `createAt`). -/
structure TodoModel where
  id : String
  title : String
  completed : Bool
  createAt : Nat
  deriving DecidableEq, Repr

/-- The Go `todo` wire struct as rendered in responses: `ID string`,
`Title string`, `Completed string`, `CreatedAt time.Time`. -/
structure TodoView where
  id : String
  title : String
  completed : String
  created_at : Nat
  deriving DecidableEq, Repr

/-- A JSON value that can appear for the `title` / `completed` keys of a
request body in the scenarios of the spec: a JSON string or a JSON boolean. -/
inductive JVal where
  | jstr (s : String)
  | jbool (b : Bool)
  deriving DecidableEq, Repr

/-- A request body: either not well-formed JSON, or a JSON object giving
optional `title` and `completed` members (other members are ignored by
Go's decoder and by the handlers, which only read `t.Title` and
`t.Completed`). -/
inductive ReqBody where
  | malformed
  | obj (title completed : Option JVal)
  deriving DecidableEq, Repr

/-- The decoded `todo` wire struct as used by the handlers: only `Title`
and `Completed` (both Go strings) are read by `createTodo`/`updateTodo`. -/
structure TodoWire where
  title : String
  completed : String
  deriving DecidableEq, Repr

/-- Go's `strconv.FormatBool`. -/
def formatBool (b : Bool) : String :=
  if b then "true" else "false"

/-- Hex digit test used by ObjectID validation. -/
def isHexChar (c : Char) : Bool :=
  c.isDigit || (('a' ≤ c) && (c ≤ 'f')) || (('A' ≤ c) && (c ≤ 'F'))

/-- Go's `primitive.IsValidObjectID`: the string is 24 characters of hex. -/
def isValidObjectID (s : String) : Bool :=
  s.length == 24 && s.toList.all isHexChar

/-- Go's `primitive.ObjectIDFromHex` followed by rendering: the parsed
ObjectID compares equal to a stored one exactly when the lowercase hex
strings agree, so the parse is modelled as lowercasing each character. -/
def objIDFromHex (s : String) : String :=
  ⟨s.data.map Char.toLower⟩

/-- Decoding one JSON member into a Go `string` struct field: an absent
member leaves the zero value `""`, a JSON string decodes to itself, and a
JSON boolean is a type mismatch error. -/
def decodeJStr (v : Option JVal) (field : String) : Except String String :=
  match v with
  | none => .ok ""
  | some (.jstr s) => .ok s
  | some (.jbool _) =>
      .error ("json: cannot unmarshal bool into Go struct field todo."
        ++ field ++ " of type string")

/-- Go's `json.NewDecoder(r.Body).Decode(&t)` into the `todo` struct. -/
def decodeTodoBody : ReqBody → Except String TodoWire
  | .malformed => .error "invalid character in request body"
  | .obj title completed => do
      let t ← decodeJStr title "title"
      let c ← decodeJStr completed "completed"
      .ok ⟨t, c⟩

/-- Decoding one stored document back into `todoModel` (what
`cursor.All` does in `fetchTodos`): the stored `completed` must be a BSON
boolean to land in the Go `bool` field. -/
def decodeStored (d : StoredTodo) : Except String TodoModel :=
  match d.completed with
  | .b c => .ok ⟨d.id, d.title, c, d.createAt⟩
  | .s _ => .error "error decoding key completed: cannot decode string into a boolean type"

/-- Conversion of a decoded `todoModel` to the wire `todo` struct as done
in the loop of `fetchTodos`: `ID.Hex()`, title kept, `strconv.FormatBool`
on the completed flag, timestamp kept. -/
def toView (m : TodoModel) : TodoView :=
  ⟨m.id, m.title, formatBool m.completed, m.createAt⟩

/-- `cursor.All` over the collection: decodes every document into
`todoModel`, failing on the first document that does not decode. -/
def decodeAll : Store → Except String (List TodoModel)
  | [] => .ok []
  | d :: rest => do
      let m ← decodeStored d
      let ms ← decodeAll rest
      .ok (m :: ms)

/-- Store operations a handler can issue, recorded in order. -/
inductive StoreOp where
  | find
  | insert
  | update
  | delete
  deriving DecidableEq, Repr

/-- An HTTP JSON response, by its envelope shape. -/
inductive Resp where
  | err (status : Nat) (message error : String)
  | msg (status : Nat) (message : String)
  | createdR (status : Nat) (message todoId : String)
  | dataR (status : Nat) (views : List TodoView)
  deriving DecidableEq, Repr

/-- Outcome of running a handler: a response was written, or the handler
panicked (nil pointer dereference). -/
inductive HandlerResult where
  | ok (r : Resp)
  | panicked
  deriving DecidableEq, Repr

/-- Removes the first document with the given `_id` (Mongo `DeleteOne`). -/
def removeFirst : Store → String → Store
  | [], _ => []
  | d :: rest, oid => if d.id == oid then rest else removeFirst rest oid |> (d :: ·)

/-- Applies `UpdateOne` with `$set` of `title` and `completed` to the first
document with the given `_id`; all other fields and documents are kept. -/
def setFirst : Store → String → String → BsonVal → Store
  | [], _, _, _ => []
  | d :: rest, oid, ttl, cmp =>
      if d.id == oid then { d with title := ttl, completed := cmp } :: rest
      else d :: setFirst rest oid ttl cmp

/-- Whether some stored document has the given `_id`. -/
def hasId (st : Store) (oid : String) : Bool :=
  st.any (fun d => d.id == oid)

/-- The `fetchTodos` handler. `findErr` is the outcome of the store's
`Find` call (`none` = success). Returns the response and the store
operations issued; the store itself is never mutated. -/
def fetchTodos (findErr : Option String) (st : Store) : Resp × List StoreOp :=
  match findErr with
  | some e => (.err 400 "could not fetch todos" e, [.find])
  | none =>
      match decodeAll st with
      | .error e => (.err 400 "could not decode todos" e, [.find])
      | .ok models => (.dataR 200 (models.map toView), [.find])

/-- The `createTodo` handler. `insertErr` is the outcome of `InsertOne`
(`none` = success), `freshId` the hex of the `primitive.NewObjectID()`,
`now` the `time.Now()` stamp. Returns the handler outcome, the new store
state and the store operations issued. -/
def createTodo (insertErr : Option String) (freshId : String) (now : Nat)
    (st : Store) (body : ReqBody) : HandlerResult × Store × List StoreOp :=
  match decodeTodoBody body with
  | .error e => (.ok (.err 400 "invalid request" e), st, [])
  | .ok t =>
      if t.title == "" then
        (.ok (.err 400 "title is required" "bad request"), st, [])
      else
        match insertErr with
        | some e => (.ok (.err 400 "could not create todo" e), st, [.insert])
        | none =>
            (.ok (.createdR 201 "todo created successfully" freshId),
             st ++ [⟨freshId, t.title, .b false, now⟩], [.insert])

/-- The `deleteTodo` handler. `delErr` is the outcome of `DeleteOne`
(`none` = success). In the branch `err != nil || res.DeletedCount == 0`
the code evaluates `err.Error()`; with `err == nil` that is a nil pointer
dereference, modelled as `HandlerResult.panicked`. -/
def deleteTodo (delErr : Option String) (st : Store) (id : String) :
    HandlerResult × Store × List StoreOp :=
  if !isValidObjectID id then
    (.ok (.err 400 "invalid id" "bad request"), st, [])
  else
    let objID := objIDFromHex id
    match delErr with
    | some e => (.ok (.err 400 "could not delete todo" e), st, [.delete])
    | none =>
        if hasId st objID then
          (.ok (.msg 200 "todo deleted successfully"), removeFirst st objID, [.delete])
        else
          (.panicked, st, [.delete])

/-- The `updateTodo` handler. `updErr` is the outcome of `UpdateOne`
(`none` = success). The `$set` document is
`bson.M left-brace "title": t.Title, "completed": t.Completed right-brace`
with `t.Completed` a Go string, so the stored `completed` becomes a BSON
string. In the branch `err != nil || res.MatchedCount == 0` the code
evaluates `err.Error()`; with `err == nil` that panics. -/
def updateTodo (updErr : Option String) (st : Store) (id : String)
    (body : ReqBody) : HandlerResult × Store × List StoreOp :=
  if !isValidObjectID id then
    (.ok (.err 400 "invalid id" "bad request"), st, [])
  else
    match decodeTodoBody body with
    | .error e => (.ok (.err 400 "invalid request" e), st, [])
    | .ok t =>
        let objID := objIDFromHex id
        match updErr with
        | some e => (.ok (.err 400 "could not update todo" e), st, [.update])
        | none =>
            if hasId st objID then
              (.ok (.msg 200 "todo updated successfully"),
               setFirst st objID t.title (.s t.completed), [.update])
            else
              (.panicked, st, [.update])

/-- Events of the shutdown sequence in `main` after `<-stopChan`. -/
inductive ShutdownEvent where
  | storeDisconnect
  | serverShutdown (graceMs : Nat)
  deriving DecidableEq, Repr

/-- The shutdown sequence of `main`: if the client handle is non-nil,
`client.Disconnect` runs first; then `srv.Shutdown` with a context whose
timeout is 5 seconds. -/
def shutdownSequence (clientOpen : Bool) : List ShutdownEvent :=
  (if clientOpen then [.storeDisconnect] else []) ++ [.serverShutdown 5000]

/-- Whether an event is the store disconnect. -/
def isDisconnect : ShutdownEvent → Bool
  | .storeDisconnect => true
  | .serverShutdown _ => false

/-- True when some server shutdown event occurs strictly before some store
disconnect event in the list. -/
def serverBeforeStore : List ShutdownEvent → Bool
  | [] => false
  | .serverShutdown _ :: rest => rest.any isDisconnect || serverBeforeStore rest
  | .storeDisconnect :: rest => serverBeforeStore rest

/-- Whether a handler outcome is a client-error envelope carrying both a
message and an error text, with status 400. -/
def isClientErr : HandlerResult → Bool
  | .ok (.err 400 _ _) => true
  | _ => false

/-- A fixed well-formed ObjectID hex string used by concrete scenarios. -/
def oidA : String := "0123456789abcdef01234567"

/-- A second, distinct well-formed ObjectID hex string. -/
def oidB : String := "89abcdef0123456789abcdef"

/-! Helper lemmas shared by the claim theorems. -/

/-- A collection containing a document with the sought id reports a match. -/
theorem hasId_of_mem_first (pre post : Store) (r : StoredTodo) (oid : String)
    (hr : r.id = oid) : hasId (pre ++ r :: post) oid = true := by
  simp [hasId, hr]

/-- `setFirst` on a collection whose first match is `r` rewrites exactly
the `title` and `completed` fields of `r` and nothing else. -/
theorem setFirst_first_match (pre post : Store) (r : StoredTodo)
    (oid ttl : String) (cmp : BsonVal)
    (hpre : ∀ x ∈ pre, x.id ≠ oid) (hr : r.id = oid) :
    setFirst (pre ++ r :: post) oid ttl cmp
      = pre ++ { r with title := ttl, completed := cmp } :: post := by
  induction pre with
  | nil => simp [setFirst, hr]
  | cons d rest ih =>
      have hd : d.id ≠ oid := hpre d (by simp)
      simp only [List.cons_append, setFirst, beq_eq_false_iff_ne.mpr hd,
        Bool.false_eq_true, if_false]
      exact congrArg (d :: ·) (ih fun x hx => hpre x (by simp [hx]))

/-- Successful `updateTodo` run: valid id, string-typed body members, no
store error and at least one matching document yield the 200 envelope and
a `$set` of `title`/`completed` on the first matching document. -/
theorem updateTodo_success (id ttl cmp : String) (st : Store)
    (hid : isValidObjectID id = true)
    (hmatch : hasId st (objIDFromHex id) = true) :
    updateTodo none st id (.obj (some (.jstr ttl)) (some (.jstr cmp)))
      = (.ok (.msg 200 "todo updated successfully"),
         setFirst st (objIDFromHex id) ttl (.s cmp), [.update]) := by
  simp [updateTodo, hid, decodeTodoBody, decodeJStr, hmatch, Except.bind, bind]

/-- C1, counterexample: the claimed scenario — PUT on an existing record
with the body giving title "buy milk" and completed as the JSON boolean
true — does not yield the 200 success envelope: the JSON boolean cannot be
decoded into the string-typed `Completed` field of the `todo` wire struct,
so the handler answers 400 "invalid request" and leaves the store alone. -/
theorem c1_put_bool_body_counterexample :
    updateTodo none [⟨oidA, "old", .b false, 7⟩] oidA
        (.obj (some (.jstr "buy milk")) (some (.jbool true)))
      = (.ok (.err 400 "invalid request"
          "json: cannot unmarshal bool into Go struct field todo.completed of type string"),
         [⟨oidA, "old", .b false, 7⟩], []) ∧
    (updateTodo none [⟨oidA, "old", .b false, 7⟩] oidA
        (.obj (some (.jstr "buy milk")) (some (.jbool true)))).1
      ≠ .ok (.msg 200 "todo updated successfully") := by
  decide

/-- C1, amended: a PUT whose path id is a well-formed ObjectID hex string
matching exactly one stored record and whose body supplies title and
completed as JSON strings returns the 200 success envelope with a message;
the same request with completed supplied as a JSON boolean fails to decode
and returns the 400 message/error envelope with the store untouched. -/
theorem c1_put_update_amended (id ttl cmp : String) (bb : Bool)
    (pre post : Store) (r : StoredTodo)
    (hid : isValidObjectID id = true)
    (hr : r.id = objIDFromHex id)
    (_hpre : ∀ x ∈ pre, x.id ≠ objIDFromHex id)
    (_hpost : ∀ x ∈ post, x.id ≠ objIDFromHex id) :
    (updateTodo none (pre ++ r :: post) id
        (.obj (some (.jstr ttl)) (some (.jstr cmp)))).1
      = .ok (.msg 200 "todo updated successfully") ∧
    updateTodo none (pre ++ r :: post) id
        (.obj (some (.jstr ttl)) (some (.jbool bb)))
      = (.ok (.err 400 "invalid request"
          "json: cannot unmarshal bool into Go struct field todo.completed of type string"),
         pre ++ r :: post, []) := by
  constructor
  · rw [updateTodo_success id ttl cmp _ hid (hasId_of_mem_first pre post r _ hr)]
  · simp [updateTodo, hid, decodeTodoBody, decodeJStr, Except.bind, bind]

/-- Witness for the amended C1 theorem at a concrete store and body. -/
theorem c1_put_update_amended_witness :
    isValidObjectID oidA = true ∧
    (updateTodo none [⟨oidA, "old", .b false, 7⟩] oidA
        (.obj (some (.jstr "buy milk")) (some (.jstr "true")))).1
      = .ok (.msg 200 "todo updated successfully") := by
  refine ⟨by decide, ?_⟩
  exact (c1_put_update_amended oidA "buy milk" "true" true [] []
    ⟨oidA, "old", .b false, 7⟩ (by decide) (by decide) (by simp) (by simp)).1

/-- C2: against a store holding no record with the given well-formed id,
and with the store call itself succeeding (nil error, zero documents
affected), both deleteTodo and updateTodo reach the branch that evaluates
`err.Error()` with `err == nil` and panic instead of returning the
client-error envelope. -/
theorem c2_zero_affected_panics :
    deleteTodo none [] oidA = (.panicked, [], [.delete]) ∧
    updateTodo none [] oidA (.obj (some (.jstr "x")) (some (.jstr "true")))
      = (.panicked, [], [.update]) := by
  decide

/-- C3: createTodo stores completed as the BSON boolean false, but a
successful updateTodo overwrites it with the decoded wire string (a BSON
string, here "true"), so the boolean invariant on the persisted completed
field is not preserved by update; the program's own document decoder
subsequently rejects such a record. -/
theorem c3_update_stores_non_boolean_completed :
    (createTodo none oidA 5 [] (.obj (some (.jstr "x")) none)).2.1
      = [⟨oidA, "x", .b false, 5⟩] ∧
    (updateTodo none [⟨oidA, "x", .b false, 5⟩] oidA
        (.obj (some (.jstr "x")) (some (.jstr "true")))).2.1
      = [⟨oidA, "x", .s "true", 5⟩] ∧
    decodeStored ⟨oidA, "x", .s "true", 5⟩
      = .error "error decoding key completed: cannot decode string into a boolean type" :=
  ⟨rfl, rfl, rfl⟩

/-- C9: in the shutdown sequence of main the store disconnect comes first
and the server shutdown, with its 5-second grace period, comes second; in
no configuration does the server shutdown precede the store disconnect. -/
theorem c9_shutdown_store_then_server :
    shutdownSequence true = [.storeDisconnect, .serverShutdown 5000] ∧
    serverBeforeStore (shutdownSequence true) = false ∧
    serverBeforeStore (shutdownSequence false) = false := by
  decide

/-- C4: whenever the body decodes and carries a non-empty title, createTodo
inserts a record whose completed flag is the boolean false regardless of
the completed value in the body, whose id is the freshly generated one and
whose timestamp is the server stamp, and it answers 201 with that id as
todo_id; a generated id is never the empty string. -/
theorem c4_create_forces_completed_false (freshId : String) (now : Nat)
    (st : Store) (body : ReqBody) (t : TodoWire)
    (hdec : decodeTodoBody body = .ok t) (ht : t.title ≠ "")
    (hfid : isValidObjectID freshId = true) :
    createTodo none freshId now st body
      = (.ok (.createdR 201 "todo created successfully" freshId),
         st ++ [⟨freshId, t.title, .b false, now⟩], [.insert]) ∧
    freshId ≠ "" := by
  constructor
  · simp [createTodo, hdec, beq_eq_false_iff_ne.mpr ht]
  · intro h
    subst h
    exact absurd hfid (by decide)

/-- Witness for the C4 theorem: the body asks for completed "true", yet
the inserted record carries the boolean false. -/
theorem c4_create_forces_completed_false_witness :
    decodeTodoBody (.obj (some (.jstr "buy milk")) (some (.jstr "true")))
      = .ok ⟨"buy milk", "true"⟩ ∧
    createTodo none oidA 5 [] (.obj (some (.jstr "buy milk")) (some (.jstr "true")))
      = (.ok (.createdR 201 "todo created successfully" oidA),
         [⟨oidA, "buy milk", .b false, 5⟩], [.insert]) := by
  refine ⟨rfl, ?_⟩
  have h := c4_create_forces_completed_false oidA 5 []
    (.obj (some (.jstr "buy milk")) (some (.jstr "true"))) ⟨"buy milk", "true"⟩
    rfl (by decide) (by decide)
  simpa using h.1

/-- C5: when the body fails to decode, or decodes with an empty title,
createTodo answers a client-error envelope, leaves the store unchanged and
issues no store operation at all. -/
theorem c5_create_invalid_no_insert (insertErr : Option String)
    (freshId : String) (now : Nat) (st : Store) (body : ReqBody)
    (h : (∃ e, decodeTodoBody body = .error e) ∨
         (∃ t, decodeTodoBody body = .ok t ∧ t.title = "")) :
    isClientErr (createTodo insertErr freshId now st body).1 = true ∧
    (createTodo insertErr freshId now st body).2.1 = st ∧
    (createTodo insertErr freshId now st body).2.2 = [] := by
  rcases h with ⟨e, he⟩ | ⟨t, htok, htitle⟩
  · simp [createTodo, he, isClientErr]
  · simp [createTodo, htok, htitle, isClientErr]

/-- Witness for the C5 theorem on a malformed body. -/
theorem c5_create_invalid_no_insert_witness :
    (∃ e, decodeTodoBody .malformed = .error e) ∧
    isClientErr (createTodo none oidA 5 [] .malformed).1 = true ∧
    (createTodo none oidA 5 [] .malformed).2.1 = [] := by
  refine ⟨⟨"invalid character in request body", rfl⟩, ?_, ?_⟩
  · exact (c5_create_invalid_no_insert none oidA 5 [] .malformed
      (Or.inl ⟨_, rfl⟩)).1
  · exact (c5_create_invalid_no_insert none oidA 5 [] .malformed
      (Or.inl ⟨_, rfl⟩)).2.1

/-- C6: on a path id that is not a valid ObjectID hex string, updateTodo
and deleteTodo answer the 400 validation envelope, leave the store
unchanged and issue no store operation, whatever the body and whatever the
store would have answered. -/
theorem c6_invalid_id_fails_fast (uErr dErr : Option String) (st : Store)
    (id : String) (body : ReqBody) (h : isValidObjectID id = false) :
    updateTodo uErr st id body
      = (.ok (.err 400 "invalid id" "bad request"), st, []) ∧
    deleteTodo dErr st id
      = (.ok (.err 400 "invalid id" "bad request"), st, []) := by
  constructor <;> simp [updateTodo, deleteTodo, h]

/-- Witness for the C6 theorem on a malformed id. -/
theorem c6_invalid_id_fails_fast_witness :
    isValidObjectID "not-an-objectid" = false ∧
    deleteTodo none [] "not-an-objectid"
      = (.ok (.err 400 "invalid id" "bad request"), [], []) := by
  refine ⟨by decide, ?_⟩
  exact (c6_invalid_id_fails_fast none none [] "not-an-objectid"
    .malformed (by decide)).2

/-- C7: a successful update of the first (unique) record matching the id
overwrites only its title and completed fields; the record keeps its id
and createAt, and every record before and after it in the collection is
returned unchanged. -/
theorem c7_update_frame (id ttl cmp : String) (pre post : Store)
    (r : StoredTodo)
    (hid : isValidObjectID id = true)
    (hr : r.id = objIDFromHex id)
    (hpre : ∀ x ∈ pre, x.id ≠ objIDFromHex id) :
    updateTodo none (pre ++ r :: post) id
        (.obj (some (.jstr ttl)) (some (.jstr cmp)))
      = (.ok (.msg 200 "todo updated successfully"),
         pre ++ { r with title := ttl, completed := .s cmp } :: post,
         [.update]) ∧
    ({ r with title := ttl, completed := BsonVal.s cmp }).id = r.id ∧
    ({ r with title := ttl, completed := BsonVal.s cmp }).createAt
      = r.createAt := by
  refine ⟨?_, rfl, rfl⟩
  rw [updateTodo_success id ttl cmp _ hid (hasId_of_mem_first pre post r _ hr),
    setFirst_first_match pre post r _ ttl (.s cmp) hpre hr]

/-- Witness for the C7 theorem: the second record and the updated record's
id and timestamp survive the update untouched. -/
theorem c7_update_frame_witness :
    isValidObjectID oidA = true ∧
    updateTodo none
        [⟨oidA, "old", .b false, 7⟩, ⟨oidB, "other", .b true, 9⟩] oidA
        (.obj (some (.jstr "new")) (some (.jstr "true")))
      = (.ok (.msg 200 "todo updated successfully"),
         [⟨oidA, "new", .s "true", 7⟩, ⟨oidB, "other", .b true, 9⟩],
         [.update]) := by
  refine ⟨by decide, ?_⟩
  have h := c7_update_frame oidA "new" "true" [] [⟨oidB, "other", .b true, 9⟩]
    ⟨oidA, "old", .b false, 7⟩ (by decide) (by decide) (by simp)
  simpa using h.1

/-- A successful `decodeAll` run relates documents and models pointwise. -/
theorem decodeAll_ok_forall2 (st : Store) (models : List TodoModel)
    (h : decodeAll st = .ok models) :
    List.Forall₂ (fun d m => decodeStored d = Except.ok m) st models := by
  induction st generalizing models with
  | nil =>
      unfold decodeAll at h
      cases h
      exact List.Forall₂.nil
  | cons d rest ih =>
      unfold decodeAll at h
      cases hd : decodeStored d with
      | error e => rw [hd] at h; simp [Except.bind, bind] at h
      | ok m =>
          rw [hd] at h
          cases hrest : decodeAll rest with
          | error e => rw [hrest] at h; simp [Except.bind, bind] at h
          | ok ms =>
              rw [hrest] at h
              simp only [Except.bind, bind] at h
              cases h
              exact List.Forall₂.cons hd (ih ms hrest)

/-- A document that decodes keeps id, title and timestamp, and its stored
completed value is the boolean wrapped by the model. -/
theorem decodeStored_ok_fields (d : StoredTodo) (m : TodoModel)
    (h : decodeStored d = .ok m) :
    m.id = d.id ∧ m.title = d.title ∧ m.createAt = d.createAt ∧
      d.completed = .b m.completed := by
  unfold decodeStored at h
  cases hc : d.completed with
  | b c => rw [hc] at h; cases h; simp [hc]
  | s s0 => rw [hc] at h; cases h

/-- C8: when every stored document decodes, the list handler answers the
200 envelope wrapping the views in a data field, and pointwise each view
keeps the stored id, title and timestamp while rendering the completed
flag as exactly the text "true" or "false". -/
theorem c8_fetch_views (st : Store) (models : List TodoModel)
    (h : decodeAll st = .ok models) :
    fetchTodos none st = (.dataR 200 (models.map toView), [.find]) ∧
    List.Forall₂ (fun d v =>
        v.id = d.id ∧ v.title = d.title ∧ v.created_at = d.createAt ∧
        (v.completed = "true" ∨ v.completed = "false"))
      st (models.map toView) := by
  constructor
  · simp [fetchTodos, h]
  · rw [List.forall₂_map_right_iff]
    refine (decodeAll_ok_forall2 st models h).imp ?_
    intro d m hdm
    obtain ⟨h1, h2, h3, _⟩ := decodeStored_ok_fields d m hdm
    refine ⟨by simp [toView, h1], by simp [toView, h2], by simp [toView, h3], ?_⟩
    cases hm : m.completed <;> simp [toView, formatBool, hm]

/-- Witness for the C8 theorem on a two-record store. -/
theorem c8_fetch_views_witness :
    decodeAll [⟨oidA, "a", .b false, 1⟩, ⟨oidB, "b", .b true, 2⟩]
      = .ok [⟨oidA, "a", false, 1⟩, ⟨oidB, "b", true, 2⟩] ∧
    fetchTodos none [⟨oidA, "a", .b false, 1⟩, ⟨oidB, "b", .b true, 2⟩]
      = (.dataR 200 [⟨oidA, "a", "false", 1⟩, ⟨oidB, "b", "true", 2⟩],
         [.find]) := by
  refine ⟨rfl, ?_⟩
  have h := c8_fetch_views [⟨oidA, "a", .b false, 1⟩, ⟨oidB, "b", .b true, 2⟩]
    [⟨oidA, "a", false, 1⟩, ⟨oidB, "b", true, 2⟩] rfl
  simpa [toView, formatBool] using h.1

/-- C10: a create body whose completed member is a JSON boolean never
decodes into the string-typed wire struct, so createTodo answers the 400
invalid-request envelope, keeps the store unchanged and issues no store
operation; a string-typed or absent completed member does decode. -/
theorem c10_create_bool_completed_rejected (insertErr : Option String)
    (freshId : String) (now : Nat) (st : Store) (tv : Option JVal)
    (bb : Bool) (ttl s : String) :
    (∃ e, createTodo insertErr freshId now st (.obj tv (some (.jbool bb)))
        = (.ok (.err 400 "invalid request" e), st, [])) ∧
    decodeTodoBody (.obj (some (.jstr ttl)) (some (.jstr s))) = .ok ⟨ttl, s⟩ ∧
    decodeTodoBody (.obj (some (.jstr ttl)) none) = .ok ⟨ttl, ""⟩ := by
  refine ⟨?_, rfl, rfl⟩
  rcases tv with _ | v
  · exact ⟨"json: cannot unmarshal bool into Go struct field todo.completed of type string",
      by simp [createTodo, decodeTodoBody, decodeJStr, Except.bind, bind]⟩
  · cases v with
    | jstr s2 =>
        exact ⟨"json: cannot unmarshal bool into Go struct field todo.completed of type string",
          by simp [createTodo, decodeTodoBody, decodeJStr, Except.bind, bind]⟩
    | jbool b2 =>
        exact ⟨"json: cannot unmarshal bool into Go struct field todo.title of type string",
          by simp [createTodo, decodeTodoBody, decodeJStr, Except.bind, bind]⟩

end GoTodo
